import Mathlib

/-!
Verification development for a small Streamlit dashboard (`app.py`) that
loads a sample time-series table (traffic or factory preset), renders a
dual-axis chart, computes pandas descriptive statistics, and sends them to
the Gemini generative API to obtain a textual report.

The Python source is shallowly embedded:
* `Table` models a pandas DataFrame as an ordered list of named columns,
  each either numeric (rationals) or textual.
* `get_mock_data` mirrors the two hard-coded sample tables.
* External library calls (`genai.configure`, `genai.GenerativeModel`,
  `model.generate_content`, `df.describe().to_string()`) are modelled as
  fields of an environment `PyEnv`; each call may fail (`Except`), matching
  a raised Python exception, and `generate_insight` records which calls
  it performed in a trace of `ApiCall` events.
* `percentile` / `describeCol` / `describeTable` model the statistics
  contract of pandas `describe` (linear-interpolation percentiles).
-/

/-- Column payload of a table: either a numeric column or a text column. -/
inductive ColData where
  | nums (vals : List ℚ)
  | strs (vals : List String)
  deriving DecidableEq

/-- Named column of a table. -/
structure Column where
  name : String
  data : ColData
  deriving DecidableEq

/-- A DataFrame: ordered sequence of named columns. -/
abbrev Table := List Column

/-- Number of entries stored in a column. -/
def ColData.len : ColData → Nat
  | .nums vs => vs.length
  | .strs vs => vs.length

/-- Row counts of all columns, in declaration order. -/
def rowCounts (t : Table) : List Nat :=
  t.map fun c => c.data.len

/-- Numeric columns of a table (name and values), in declaration order;
this models pandas dtype-based numeric selection. -/
def numericCols (t : Table) : List (String × List ℚ) :=
  t.filterMap fun c =>
    match c.data with
    | .nums vs => some (c.name, vs)
    | .strs _ => none

/-- Names of the numeric columns, in declaration order
(`df.select_dtypes(include=['number']).columns`). -/
def numericColNames (t : Table) : List String :=
  (numericCols t).map Prod.fst

/-- The hard-coded sample tables of `get_mock_data` in `app.py`: the
Traffic preset for the domain string "智慧交通 (Traffic)", the Factory
preset for every other domain string. -/
def get_mock_data (domain : String) : Table :=
  if domain = "智慧交通 (Traffic)" then
    [⟨"Time", .strs ["08:00", "09:00", "10:00", "11:00", "12:00", "13:00", "14:00"]⟩,
     ⟨"Flow (veh/hr)", .nums [1200, 800, 400, 350, 450, 400, 380]⟩,
     ⟨"Speed (km/h)", .nums [15, 30, 60, 65, 60, 62, 65]⟩,
     ⟨"Occupancy (%)", .nums [85, 60, 20, 15, 25, 20, 18]⟩]
  else
    [⟨"Time", .strs ["08:00", "09:00", "10:00", "11:00", "12:00", "13:00", "14:00"]⟩,
     ⟨"Temperature (C)", .nums [60, 65, 85, 90, 70, 65, 62]⟩,
     ⟨"Vibration (mm/s)", .nums [(1/2 : ℚ), 3/5, 14/5, 31/10, 4/5, 3/5, 1/2]⟩,
     ⟨"Output (units)", .nums [100, 98, 40, 35, 95, 100, 100]⟩]

/-- Linear interpolation step shared by the percentile computation: read
positions `i` and `i+1` of the (sorted) list and interpolate between them
by `frac`; when `i` is the last position, return that entry. -/
def interpolate (xs : List ℚ) (i : Nat) (frac : ℚ) : Option ℚ :=
  match xs[i]?, xs[i + 1]? with
  | some a, some b => some (a + frac * (b - a))
  | some a, none => some a
  | none, _ => none

/-- Modelled from the spec: the p-th percentile (0 ≤ p ≤ 1) of a sorted
list via linear interpolation, as pandas `describe` computes quartiles
(the repository only calls `df.describe()`; the semantics are the spec's
"25th/50th/75th percentiles via linear interpolation"). -/
def percentile (xs : List ℚ) (p : ℚ) : Option ℚ :=
  let h := p * ((xs.length : ℚ) - 1)
  interpolate xs ⌊h⌋.toNat (h - (⌊h⌋.toNat : ℚ))

/-- Descriptive statistics of one numeric column, as in pandas `describe`.
The standard deviation is carried as the sample variance (its square is
irrelevant to ordering claims and keeps the development in ℚ). -/
structure ColStats where
  count : Nat
  mean : Option ℚ
  sampleVar : Option ℚ
  min : Option ℚ
  q25 : Option ℚ
  q50 : Option ℚ
  q75 : Option ℚ
  max : Option ℚ
  deriving DecidableEq

/-- Modelled from the spec: descriptive statistics of one numeric column
(count, mean, sample variance, min, quartiles, max) with standard
descriptive-statistics semantics. -/
def describeCol (vs : List ℚ) : ColStats :=
  let sorted := vs.mergeSort
  { count := vs.length
    mean := if vs.length = 0 then none else some (vs.sum / (vs.length : ℚ))
    sampleVar :=
      if vs.length ≤ 1 then none
      else some ((vs.map fun x => (x - vs.sum / (vs.length : ℚ)) ^ 2).sum / ((vs.length : ℚ) - 1))
    min := sorted[0]?
    q25 := percentile sorted (1/4)
    q50 := percentile sorted (1/2)
    q75 := percentile sorted (3/4)
    max := sorted[sorted.length - 1]? }

/-- Modelled from the spec: the statistics summary over all numeric columns
of a table; non-numeric columns are excluded (`df.describe()` with at least
one numeric column present). -/
def describeTable (t : Table) : List (String × ColStats) :=
  (numericCols t).map fun p => (p.1, describeCol p.2)

/-- One plotted line of the chart block: x/y column names, legend label,
whether it sits on the secondary (twin) axis, and an explicit color. -/
structure LineSpec where
  x : String
  y : String
  label : String
  secondaryAxis : Bool
  color : Option String
  deriving DecidableEq

/-- The chart block of the main layout (`app.py` lines 126-132): when at
least two numeric columns exist, plot the first against `Time` on the
primary axis and the second against `Time` on a twin axis colored orange,
each labeled with its column name; otherwise no chart is produced. -/
def chartBlock (t : Table) : Option (List LineSpec) :=
  match numericColNames t with
  | c0 :: c1 :: _ =>
      some [⟨"Time", c0, c0, false, none⟩, ⟨"Time", c1, c1, true, some "orange"⟩]
  | _ => none

/-- The role sentence selected by the domain string (`role_prompt`). -/
def role_prompt (domain : String) : String :=
  if domain = "智慧交通 (Traffic)" then "你是一位資深的交通數據分析師。"
  else "你是一位資深的工廠設備維運工程師。"

/-- Fixed tail of the Traffic prompt template after the statistics text. -/
def trafficTail : String :=
  "\n        \n        重點觀察：\n        1. 車流 (Flow) 與 車速 (Speed) 的關係。\n        2. 是否有壅塞發生？(提示：低速、高佔有率)\n        3. 給出 3 點交通疏導建議。\n        請用繁體中文回答。\n        "

/-- Fixed tail of the Factory prompt template after the statistics text. -/
def factoryTail : String :=
  "\n        \n        重點觀察：\n        1. 溫度 (Temperature) 與 震動 (Vibration) 是否有異常飆高？\n        2. 產量 (Output) 是否受到影響？\n        3. 給出 3 點設備維護建議。\n        請用繁體中文回答。\n        "

/-- The prompt built by `generate_insight` (`task_prompt` in `app.py`):
one of two fixed f-string templates with the role sentence and the
statistics text interpolated. -/
def task_prompt (domain stats : String) : String :=
  if domain = "智慧交通 (Traffic)" then
    "\n        " ++ role_prompt domain ++ "\n        請分析以下交通數據統計值：\n        "
      ++ stats ++ trafficTail
  else
    "\n        " ++ role_prompt domain ++ "\n        請分析以下機台感測數據統計值：\n        "
      ++ stats ++ factoryTail

instance exceptDecEq {ε α : Type} [DecidableEq ε] [DecidableEq α] :
    DecidableEq (Except ε α)
  | .error e, .error f =>
      if h : e = f then .isTrue (by rw [h]) else .isFalse (by simp [h])
  | .error _, .ok _ => .isFalse (by simp)
  | .ok _, .error _ => .isFalse (by simp)
  | .ok a, .ok b =>
      if h : a = b then .isTrue (by rw [h]) else .isFalse (by simp [h])

/-- One candidate of a generation response; reading
`candidates[0].finish_reason.name` may itself raise, hence `Except`. -/
structure Candidate where
  finish_reason_name : Except String String
  deriving DecidableEq

/-- Response-level prompt feedback; `block_reason_name` is `some name`
when a truthy `block_reason` attribute is present, else `none`. -/
structure PromptFeedback where
  block_reason_name : Option String
  deriving DecidableEq

/-- A `generate_content` response. `parts` are the content parts; `text`
is the answer text read when parts exist. Reading `prompt_feedback` or
`candidates` may raise on an unexpected response shape, hence `Except`. -/
structure GenaiResponse where
  parts : List String
  text : String
  prompt_feedback : Except String (Option PromptFeedback)
  candidates : Except String (List Candidate)
  deriving DecidableEq

/-- External-library boundary of `generate_insight`: the genai calls and
the pandas statistics rendering. Each call either succeeds or raises
(`Except`), matching Python exception behavior. -/
structure PyEnv where
  configure : String → Except String Unit
  getGenerativeModel : String → Except String Unit
  pdDescribeToString : Table → Except String String
  generate_content : String → Except String GenaiResponse

/-- Trace event: one outbound/library call performed by `generate_insight`. -/
inductive ApiCall where
  | configure (key : String)
  | getModel (name : String)
  | describeStats
  | generate (prompt : String)
  deriving DecidableEq

/-- Report returned when the credential is empty (`app.py` line 44). -/
def missingKeyMsg : String := "⚠️ 請輸入 Google API Key 以獲取 AI 深度解讀報告。"

/-- Generic fallback report when the response is empty and its feedback
fields cannot be read (`app.py` line 103). -/
def emptyFallbackMsg : String := "生成內容為空，且無法讀取詳細的回饋資訊。請檢查 API 金鑰與模型權限。"

/-- Diagnostic report for an empty/blocked response (`app.py` line 100). -/
def diagMessage (finish block : String) : String :=
  "生成內容被阻擋或為空。結束原因: " ++ finish ++ "。阻擋原因: " ++ block ++ "。請檢查提示詞或安全設定。"

/-- Block-reason string extracted from prompt feedback (`app.py` line 94):
the reason's name when present and truthy, else the literal "未提供". -/
def blockReasonStr : Option PromptFeedback → String
  | some fb =>
      match fb.block_reason_name with
      | some n => n
      | none => "未提供"
  | none => "未提供"

/-- The inner try-block of `generate_insight` (`app.py` lines 92-100):
read the feedback and candidate fields and build the diagnostic report;
any raise during those reads surfaces as `.error`. -/
def extractDiagnostics (r : GenaiResponse) : Except String String := do
  let fb ← r.prompt_feedback
  let block := blockReasonStr fb
  let cands ← r.candidates
  match cands with
  | [] => pure (diagMessage "未知" block)
  | c :: _ => do
      let fr ← c.finish_reason_name
      pure (diagMessage fr block)

/-- Interpretation of a successful `generate_content` response
(`app.py` lines 89-105): empty parts lead to the diagnostic report (or
the generic fallback if reading diagnostics raises); otherwise the
response text is returned verbatim. -/
def interpretResponse (r : GenaiResponse) : String :=
  if r.parts.isEmpty then
    match extractDiagnostics r with
    | .ok msg => msg
    | .error _ => emptyFallbackMsg
  else r.text

/-- Shallow embedding of `generate_insight(df, domain, api_key)`
(`app.py` lines 42-107). The first component is the outcome: `.ok report`
models a returned report string, `.error e` models an exception
propagating out of the function. The second component is the trace of
library calls performed, in order. -/
def generate_insight (env : PyEnv) (df : Table) (domain api_key : String) :
    Except String String × List ApiCall :=
  if api_key = "" then (.ok missingKeyMsg, [])
  else
    match env.configure api_key with
    | .error e => (.ok ("API 設定錯誤: " ++ e), [.configure api_key])
    | .ok _ =>
      match env.getGenerativeModel "gemini-flash-latest" with
      | .error e =>
          (.ok ("API 設定錯誤: " ++ e),
           [.configure api_key, .getModel "gemini-flash-latest"])
      | .ok _ =>
        match env.pdDescribeToString df with
        | .error e =>
            (.error e,
             [.configure api_key, .getModel "gemini-flash-latest", .describeStats])
        | .ok stats =>
          match env.generate_content (task_prompt domain stats) with
          | .error e =>
              (.ok ("生成錯誤: " ++ e),
               [.configure api_key, .getModel "gemini-flash-latest", .describeStats,
                .generate (task_prompt domain stats)])
          | .ok r =>
              (.ok (interpretResponse r),
               [.configure api_key, .getModel "gemini-flash-latest", .describeStats,
                .generate (task_prompt domain stats)])

/-- Flow values of the Traffic sample table, used to instantiate the
statistics bounds at a concrete column. -/
def trafficFlowVals : List ℚ := [1200, 800, 400, 350, 450, 400, 380]

/-- Stub response carrying a single content part with text "OK". -/
def stubRespOK : GenaiResponse := ⟨["OK"], "OK", .ok none, .ok []⟩

/-- Stub response with zero parts, no feedback, no candidates. -/
def stubRespNoDiag : GenaiResponse := ⟨[], "", .ok none, .ok []⟩

/-- Stub environment: all library calls succeed and generation answers "OK". -/
def stubEnvOK : PyEnv :=
  ⟨fun _ => .ok (), fun _ => .ok (), fun _ => .ok "STATS", fun _ => .ok stubRespOK⟩

/-- Stub environment whose generation call raises a transport error. -/
def stubEnvTransportErr : PyEnv :=
  ⟨fun _ => .ok (), fun _ => .ok (), fun _ => .ok "STATS", fun _ => .error "boom"⟩

/-- Stub environment whose statistics step raises. -/
def stubEnvDescribeErr : PyEnv :=
  ⟨fun _ => .ok (), fun _ => .ok (), fun _ => .error "KeyError", fun _ => .ok stubRespOK⟩

/-- Stub environment whose generation call returns an empty response with
no readable finish reason and no block reason. -/
def stubEnvBlockedNoDiag : PyEnv :=
  ⟨fun _ => .ok (), fun _ => .ok (), fun _ => .ok "STATS", fun _ => .ok stubRespNoDiag⟩

/-- C2: with an empty credential, `generate_insight` returns the
missing-credential report immediately and performs zero library calls —
in particular no configure call and no generate call. -/
theorem empty_key_returns_missing_report_no_calls
    (env : PyEnv) (df : Table) (domain : String) :
    (generate_insight env df domain "").1 = .ok missingKeyMsg ∧
    (generate_insight env df domain "").2 = [] := by
  exact ⟨rfl, rfl⟩

/-- C10: with an empty credential the result does not depend on the table
at all (the credential check precedes the statistics step), and the
statistics step is never invoked. -/
theorem empty_key_never_touches_table
    (env : PyEnv) (df₁ df₂ : Table) (domain : String) :
    generate_insight env df₁ domain "" = generate_insight env df₂ domain "" ∧
    ApiCall.describeStats ∉ (generate_insight env df₁ domain "").2 ∧
    (generate_insight env df₁ domain "").1 = .ok missingKeyMsg := by
  refine ⟨rfl, ?_, rfl⟩
  simp [generate_insight]

/-- C1: with a non-empty credential, successful configuration and
statistics, a successful generation call whose response has at least one
content part makes `generate_insight` return the response text verbatim. -/
theorem success_returns_answer_text_verbatim
    (env : PyEnv) (df : Table) (domain api_key stats : String) (r : GenaiResponse)
    (hk : api_key ≠ "")
    (hc : env.configure api_key = .ok ())
    (hm : env.getGenerativeModel "gemini-flash-latest" = .ok ())
    (hd : env.pdDescribeToString df = .ok stats)
    (hg : env.generate_content (task_prompt domain stats) = .ok r)
    (hp : r.parts ≠ []) :
    (generate_insight env df domain api_key).1 = .ok r.text := by
  simp [generate_insight, hk, hc, hm, hd, hg, interpretResponse, hp]

/-- Witness for C1 at a concrete stub environment answering "OK". -/
theorem success_returns_answer_text_verbatim_witness :
    (generate_insight stubEnvOK [] "智慧交通 (Traffic)" "k").1 = .ok "OK" :=
  success_returns_answer_text_verbatim stubEnvOK [] "智慧交通 (Traffic)" "k" "STATS"
    stubRespOK (by decide) rfl rfl rfl rfl (by decide)

/-- C3: when the generation call raises, `generate_insight` returns (does
not raise) the report consisting of the generation-error indicator
followed by the error's message. -/
theorem transport_error_returns_prefixed_report
    (env : PyEnv) (df : Table) (domain api_key stats e : String)
    (hk : api_key ≠ "")
    (hc : env.configure api_key = .ok ())
    (hm : env.getGenerativeModel "gemini-flash-latest" = .ok ())
    (hd : env.pdDescribeToString df = .ok stats)
    (hg : env.generate_content (task_prompt domain stats) = .error e) :
    (generate_insight env df domain api_key).1 = .ok ("生成錯誤: " ++ e) := by
  simp [generate_insight, hk, hc, hm, hd, hg]

/-- Witness for C3 at a concrete stub environment raising "boom". -/
theorem transport_error_returns_prefixed_report_witness :
    (generate_insight stubEnvTransportErr [] "智慧交通 (Traffic)" "k").1 =
      .ok ("生成錯誤: " ++ "boom") :=
  transport_error_returns_prefixed_report stubEnvTransportErr [] "智慧交通 (Traffic)"
    "k" "STATS" "boom" (by decide) rfl rfl rfl rfl

/-- C9: when the statistics step raises (and the flow reaches it: non-empty
credential, configuration succeeded), `generate_insight` does not catch the
failure — it propagates to the caller instead of becoming a report. -/
theorem stats_failure_propagates
    (env : PyEnv) (df : Table) (domain api_key e : String)
    (hk : api_key ≠ "")
    (hc : env.configure api_key = .ok ())
    (hm : env.getGenerativeModel "gemini-flash-latest" = .ok ())
    (hd : env.pdDescribeToString df = .error e) :
    (generate_insight env df domain api_key).1 = .error e := by
  simp [generate_insight, hk, hc, hm, hd]

/-- Witness for C9 at a concrete stub environment whose statistics step
raises "KeyError". -/
theorem stats_failure_propagates_witness :
    (generate_insight stubEnvDescribeErr [] "智慧交通 (Traffic)" "k").1 =
      .error "KeyError" :=
  stats_failure_propagates stubEnvDescribeErr [] "智慧交通 (Traffic)" "k" "KeyError"
    (by decide) rfl rfl rfl

/-- C7: the prompt builder is a pure function — identical statistics text
and domain yield byte-identical prompts — and the Traffic and Factory
prompts each embed their own persona sentence, and those two persona
sentences differ. -/
theorem prompt_builder_deterministic_distinct_personas
    (d₁ d₂ s₁ s₂ : String) (hd : d₁ = d₂) (hs : s₁ = s₂) :
    task_prompt d₁ s₁ = task_prompt d₂ s₂ ∧
    role_prompt "智慧交通 (Traffic)" ≠ role_prompt "智慧工廠 (Factory)" ∧
    (∃ pre post, task_prompt "智慧交通 (Traffic)" s₁ =
        pre ++ role_prompt "智慧交通 (Traffic)" ++ post) ∧
    (∃ pre post, task_prompt "智慧工廠 (Factory)" s₁ =
        pre ++ role_prompt "智慧工廠 (Factory)" ++ post) := by
  subst hd
  subst hs
  have hne : ("智慧工廠 (Factory)" : String) ≠ "智慧交通 (Traffic)" := by decide
  refine ⟨rfl, by decide, ?_, ?_⟩
  · exact ⟨"\n        ",
      "\n        請分析以下交通數據統計值：\n        " ++ s₁ ++ trafficTail,
      by simp [task_prompt, String.append_assoc]⟩
  · exact ⟨"\n        ",
      "\n        請分析以下機台感測數據統計值：\n        " ++ s₁ ++ factoryTail,
      by simp [task_prompt, hne, String.append_assoc]⟩

/-- Witness for C7 at concrete inputs. -/
theorem prompt_builder_deterministic_distinct_personas_witness :
    task_prompt "智慧交通 (Traffic)" "S" = task_prompt "智慧交通 (Traffic)" "S" ∧
    role_prompt "智慧交通 (Traffic)" ≠ role_prompt "智慧工廠 (Factory)" ∧
    (∃ pre post, task_prompt "智慧交通 (Traffic)" "S" =
        pre ++ role_prompt "智慧交通 (Traffic)" ++ post) ∧
    (∃ pre post, task_prompt "智慧工廠 (Factory)" "S" =
        pre ++ role_prompt "智慧工廠 (Factory)" ++ post) :=
  prompt_builder_deterministic_distinct_personas "智慧交通 (Traffic)"
    "智慧交通 (Traffic)" "S" "S" rfl rfl

/-- C5 counterexample: the numeric column names of the Traffic sample carry
unit suffixes, so they are not exactly "Flow", "Speed", "Occupancy". -/
theorem mock_data_names_counterexample :
    numericColNames (get_mock_data "智慧交通 (Traffic)") =
      ["Flow (veh/hr)", "Speed (km/h)", "Occupancy (%)"] ∧
    numericColNames (get_mock_data "智慧交通 (Traffic)") ≠
      ["Flow", "Speed", "Occupancy"] := by
  constructor
  · decide
  · decide

/-- C5 amended: both presets are 7-row tables whose numeric column names
are the documented measurements with unit suffixes. -/
theorem mock_data_presets_seven_rows_unit_names :
    rowCounts (get_mock_data "智慧交通 (Traffic)") = [7, 7, 7, 7] ∧
    numericColNames (get_mock_data "智慧交通 (Traffic)") =
      ["Flow (veh/hr)", "Speed (km/h)", "Occupancy (%)"] ∧
    rowCounts (get_mock_data "智慧工廠 (Factory)") = [7, 7, 7, 7] ∧
    numericColNames (get_mock_data "智慧工廠 (Factory)") =
      ["Temperature (C)", "Vibration (mm/s)", "Output (units)"] := by
  refine ⟨?_, ?_, ?_, ?_⟩ <;> decide

/-- C8: the chart block is a silent no-op when the table has fewer than two
numeric columns; otherwise it draws the first numeric column against Time
on the primary axis and the second against Time on the secondary axis in
orange, each labeled with its own column name. -/
theorem chart_block_two_numeric_columns (t : Table) :
    ((numericColNames t).length < 2 → chartBlock t = none) ∧
    (∀ c0 c1 rest, numericColNames t = c0 :: c1 :: rest →
      chartBlock t =
        some [⟨"Time", c0, c0, false, none⟩, ⟨"Time", c1, c1, true, some "orange"⟩]) := by
  constructor
  · intro h
    rcases hnc : numericColNames t with _ | ⟨c0, _ | ⟨c1, rest⟩⟩
    · simp [chartBlock, hnc]
    · simp [chartBlock, hnc]
    · rw [hnc] at h
      simp at h
      omega
  · intro c0 c1 rest hnc
    simp [chartBlock, hnc]

/-- Witness for C8: no-op on a table with a single text column, and the
two concrete line specs on the Traffic sample table. -/
theorem chart_block_two_numeric_columns_witness :
    chartBlock [⟨"Time", .strs ["08:00"]⟩] = none ∧
    chartBlock (get_mock_data "智慧交通 (Traffic)") =
      some [⟨"Time", "Flow (veh/hr)", "Flow (veh/hr)", false, none⟩,
            ⟨"Time", "Speed (km/h)", "Speed (km/h)", true, some "orange"⟩] :=
  ⟨(chart_block_two_numeric_columns [⟨"Time", .strs ["08:00"]⟩]).1 (by decide),
   (chart_block_two_numeric_columns (get_mock_data "智慧交通 (Traffic)")).2
     "Flow (veh/hr)" "Speed (km/h)" ["Occupancy (%)"] (by decide)⟩

/-- C4 counterexample: on an empty response with no candidates and no
feedback, the report is the diagnostic message with the literals "未知"
and "未提供"; it contains neither the literal "unknown" nor the literal
"not provided" claimed by the specification sentence. -/
theorem empty_response_literals_counterexample :
    (generate_insight stubEnvBlockedNoDiag [] "智慧交通 (Traffic)" "k").1 =
      .ok (diagMessage "未知" "未提供") ∧
    ¬ ("unknown".data <:+: (diagMessage "未知" "未提供").data) ∧
    ¬ ("not provided".data <:+: (diagMessage "未知" "未提供").data) := by
  refine ⟨rfl, by decide, by decide⟩

/-- C4 amended: on a successful call whose response has zero content parts,
the report is the diagnostic message carrying the first candidate's finish
reason when readable (else the literal "未知") and the block reason from
the feedback when present (else the literal "未提供"); when reading the
feedback, the candidate list, or the finish reason itself raises, the
generic fallback report is returned instead. -/
theorem empty_response_diagnostics
    (env : PyEnv) (df : Table) (domain api_key stats : String) (r : GenaiResponse)
    (hk : api_key ≠ "")
    (hc : env.configure api_key = .ok ())
    (hm : env.getGenerativeModel "gemini-flash-latest" = .ok ())
    (hd : env.pdDescribeToString df = .ok stats)
    (hg : env.generate_content (task_prompt domain stats) = .ok r)
    (hp : r.parts = []) :
    (∀ fb, r.prompt_feedback = .ok fb → r.candidates = .ok [] →
        (generate_insight env df domain api_key).1 =
          .ok (diagMessage "未知" (blockReasonStr fb))) ∧
    (∀ fb c cs fr, r.prompt_feedback = .ok fb → r.candidates = .ok (c :: cs) →
        c.finish_reason_name = .ok fr →
        (generate_insight env df domain api_key).1 =
          .ok (diagMessage fr (blockReasonStr fb))) ∧
    (∀ e, r.prompt_feedback = .error e →
        (generate_insight env df domain api_key).1 = .ok emptyFallbackMsg) ∧
    (∀ e, r.candidates = .error e →
        (generate_insight env df domain api_key).1 = .ok emptyFallbackMsg) ∧
    (∀ fb c cs e, r.prompt_feedback = .ok fb → r.candidates = .ok (c :: cs) →
        c.finish_reason_name = .error e →
        (generate_insight env df domain api_key).1 = .ok emptyFallbackMsg) ∧
    blockReasonStr none = "未提供" ∧
    (∀ fb, fb.block_reason_name = none → blockReasonStr (some fb) = "未提供") ∧
    (∀ fb n, fb.block_reason_name = some n → blockReasonStr (some fb) = n) := by
  have hbase : (generate_insight env df domain api_key).1 = .ok (interpretResponse r) := by
    simp [generate_insight, hk, hc, hm, hd, hg]
  refine ⟨?_, ?_, ?_, ?_, ?_, rfl, ?_, ?_⟩
  · intro fb hfb hcs
    have hx : extractDiagnostics r = .ok (diagMessage "未知" (blockReasonStr fb)) := by
      unfold extractDiagnostics
      rw [hfb, hcs]
      rfl
    rw [hbase]
    simp [interpretResponse, hp, hx]
  · intro fb c cs fr hfb hcs hfr
    have hx : extractDiagnostics r = .ok (diagMessage fr (blockReasonStr fb)) := by
      unfold extractDiagnostics
      rw [hfb, hcs]
      show (fun a => diagMessage a (blockReasonStr fb)) <$> c.finish_reason_name = _
      rw [hfr]
      rfl
    rw [hbase]
    simp [interpretResponse, hp, hx]
  · intro e hfb
    have hx : extractDiagnostics r = .error e := by
      unfold extractDiagnostics
      rw [hfb]
      rfl
    rw [hbase]
    simp [interpretResponse, hp, hx]
  · intro e hcs
    rcases hfb : r.prompt_feedback with e' | fb
    · have hx : extractDiagnostics r = .error e' := by
        unfold extractDiagnostics
        rw [hfb]
        rfl
      rw [hbase]
      simp [interpretResponse, hp, hx]
    · have hx : extractDiagnostics r = .error e := by
        unfold extractDiagnostics
        rw [hfb]
        show Except.bind r.candidates _ = _
        rw [hcs]
        rfl
      rw [hbase]
      simp [interpretResponse, hp, hx]
  · intro fb c cs e hfb hcs hfr
    have hx : extractDiagnostics r = .error e := by
      unfold extractDiagnostics
      rw [hfb, hcs]
      show (fun a => diagMessage a (blockReasonStr fb)) <$> c.finish_reason_name = _
      rw [hfr]
      rfl
    rw [hbase]
    simp [interpretResponse, hp, hx]
  · intro fb hfb
    simp [blockReasonStr, hfb]
  · intro fb n hfb
    simp [blockReasonStr, hfb]

/-- Witness for C4 (amended) at a concrete stub environment returning an
empty response with no candidates and no feedback. -/
theorem empty_response_diagnostics_witness :
    (generate_insight stubEnvBlockedNoDiag [] "智慧交通 (Traffic)" "k").1 =
      .ok (diagMessage "未知" (blockReasonStr none)) :=
  (empty_response_diagnostics stubEnvBlockedNoDiag [] "智慧交通 (Traffic)" "k"
      "STATS" stubRespNoDiag (by decide) rfl rfl rfl rfl rfl).1 none rfl rfl

/-- Monotone access into a sorted list. -/
theorem sorted_getElem_mono (xs : List ℚ) (hs : List.Sorted (· ≤ ·) xs)
    (a b : Nat) (ha : a < xs.length) (hb : b < xs.length) (hab : a ≤ b) :
    xs[a] ≤ xs[b] := by
  have h2 := hs.rel_get_of_le (a := ⟨a, ha⟩) (b := ⟨b, hb⟩) (Fin.mk_le_mk.mpr hab)
  simpa using h2

/-- Interpolation between two consecutive entries of a sorted list stays
between the first and the last entry. -/
theorem interpolate_bounds (xs : List ℚ) (hs : List.Sorted (· ≤ ·) xs)
    (i : Nat) (hi : i < xs.length) (frac : ℚ) (h0 : 0 ≤ frac) (h1 : frac ≤ 1) :
    ∃ mn mx q, xs[0]? = some mn ∧ xs[xs.length - 1]? = some mx ∧
      interpolate xs i frac = some q ∧ mn ≤ q ∧ q ≤ mx := by
  have hpos : 0 < xs.length := Nat.lt_of_le_of_lt (Nat.zero_le i) hi
  have hlast : xs.length - 1 < xs.length := Nat.sub_lt hpos Nat.one_pos
  rcases hb : xs[i + 1]? with _ | b
  · refine ⟨xs[0], xs[xs.length - 1], xs[i],
      List.getElem?_eq_getElem hpos, List.getElem?_eq_getElem hlast, ?_,
      sorted_getElem_mono xs hs 0 i hpos hi (Nat.zero_le i),
      sorted_getElem_mono xs hs i (xs.length - 1) hi hlast (by omega)⟩
    unfold interpolate
    rw [List.getElem?_eq_getElem hi, hb]
  · obtain ⟨hi1, hbval⟩ := List.getElem?_eq_some.mp hb
    have hab : xs[i] ≤ b := hbval ▸ sorted_getElem_mono xs hs i (i + 1) hi hi1 (Nat.le_succ i)
    refine ⟨xs[0], xs[xs.length - 1], xs[i] + frac * (b - xs[i]),
      List.getElem?_eq_getElem hpos, List.getElem?_eq_getElem hlast, ?_, ?_, ?_⟩
    · unfold interpolate
      rw [List.getElem?_eq_getElem hi, hb]
    · have h3 : 0 ≤ frac * (b - xs[i]) := mul_nonneg h0 (sub_nonneg.mpr hab)
      have h4 := sorted_getElem_mono xs hs 0 i hpos hi (Nat.zero_le i)
      linarith
    · have h5 : frac * (b - xs[i]) ≤ 1 * (b - xs[i]) :=
        mul_le_mul_of_nonneg_right h1 (sub_nonneg.mpr hab)
      have h6 := sorted_getElem_mono xs hs (i + 1) (xs.length - 1) hi1 hlast (by omega)
      rw [hbval] at h6
      linarith

/-- The linear-interpolation percentile of a nonempty sorted list lies
between the first entry (the minimum) and the last entry (the maximum). -/
theorem percentile_bounds (xs : List ℚ) (hs : List.Sorted (· ≤ ·) xs) (hne : xs ≠ [])
    (p : ℚ) (hp0 : 0 ≤ p) (hp1 : p ≤ 1) :
    ∃ mn mx q, xs[0]? = some mn ∧ xs[xs.length - 1]? = some mx ∧
      percentile xs p = some q ∧ mn ≤ q ∧ q ≤ mx := by
  have hpos : 0 < xs.length := List.length_pos.mpr hne
  have hn1 : (0 : ℚ) ≤ (xs.length : ℚ) - 1 := by
    have h1 : (1 : ℚ) ≤ (xs.length : ℚ) := by exact_mod_cast hpos
    linarith
  have hh0 : 0 ≤ p * ((xs.length : ℚ) - 1) := mul_nonneg hp0 hn1
  have hhle : p * ((xs.length : ℚ) - 1) ≤ (xs.length : ℚ) - 1 := by
    have h2 := mul_le_mul_of_nonneg_right hp1 hn1
    linarith
  have hfl0 : (0 : ℤ) ≤ ⌊p * ((xs.length : ℚ) - 1)⌋ := Int.floor_nonneg.mpr hh0
  have hflle : ⌊p * ((xs.length : ℚ) - 1)⌋ ≤ (xs.length : ℤ) - 1 := by
    have h2 : (⌊p * ((xs.length : ℚ) - 1)⌋ : ℚ) ≤ (xs.length : ℚ) - 1 :=
      le_trans (Int.floor_le _) hhle
    exact_mod_cast h2
  have hi : (⌊p * ((xs.length : ℚ) - 1)⌋).toNat < xs.length := by omega
  have hcast : ((⌊p * ((xs.length : ℚ) - 1)⌋.toNat : ℚ)) =
      ((⌊p * ((xs.length : ℚ) - 1)⌋ : ℤ) : ℚ) := by
    have h3 : ((⌊p * ((xs.length : ℚ) - 1)⌋.toNat : ℤ)) = ⌊p * ((xs.length : ℚ) - 1)⌋ :=
      Int.toNat_of_nonneg hfl0
    exact_mod_cast h3
  have hf0 : 0 ≤ p * ((xs.length : ℚ) - 1) - (⌊p * ((xs.length : ℚ) - 1)⌋.toNat : ℚ) := by
    rw [hcast]
    have h4 := Int.floor_le (p * ((xs.length : ℚ) - 1))
    linarith
  have hf1 : p * ((xs.length : ℚ) - 1) - (⌊p * ((xs.length : ℚ) - 1)⌋.toNat : ℚ) ≤ 1 := by
    rw [hcast]
    have h5 := Int.lt_floor_add_one (p * ((xs.length : ℚ) - 1))
    linarith
  have hmain := interpolate_bounds xs hs (⌊p * ((xs.length : ℚ) - 1)⌋).toNat hi
    (p * ((xs.length : ℚ) - 1) - (⌊p * ((xs.length : ℚ) - 1)⌋.toNat : ℚ)) hf0 hf1
  simpa [percentile] using hmain

/-- C6: the summary covers exactly the numeric columns (non-numeric columns
are excluded), and for each nonempty numeric column the count equals the
number of values and the minimum is below each of the three quartiles, each
of which is below the maximum. -/
theorem stats_summary_count_and_quartile_bounds (t : Table) :
    (describeTable t).map Prod.fst = numericColNames t ∧
    ∀ name vs, (name, vs) ∈ numericCols t → vs ≠ [] →
      (describeCol vs).count = vs.length ∧
      ∃ mn mx q1 q2 q3,
        (describeCol vs).min = some mn ∧ (describeCol vs).max = some mx ∧
        (describeCol vs).q25 = some q1 ∧ (describeCol vs).q50 = some q2 ∧
        (describeCol vs).q75 = some q3 ∧
        mn ≤ q1 ∧ q1 ≤ mx ∧ mn ≤ q2 ∧ q2 ≤ mx ∧ mn ≤ q3 ∧ q3 ≤ mx := by
  constructor
  · simp [describeTable, numericColNames]
  · intro name vs hmem hne
    have hsorted : List.Sorted (· ≤ ·) vs.mergeSort := List.sorted_mergeSort' vs
    have hperm : vs.mergeSort.Perm vs := List.mergeSort_perm vs _
    have hsne : vs.mergeSort ≠ [] := by
      intro hnil
      apply hne
      have hlen := hperm.length_eq
      rw [hnil] at hlen
      exact List.eq_nil_of_length_eq_zero hlen.symm
    obtain ⟨m1, x1, q1, e10, e11, e12, e13, e14⟩ :=
      percentile_bounds vs.mergeSort hsorted hsne (1/4) (by norm_num) (by norm_num)
    obtain ⟨m2, x2, q2, e20, e21, e22, e23, e24⟩ :=
      percentile_bounds vs.mergeSort hsorted hsne (1/2) (by norm_num) (by norm_num)
    obtain ⟨m3, x3, q3, e30, e31, e32, e33, e34⟩ :=
      percentile_bounds vs.mergeSort hsorted hsne (3/4) (by norm_num) (by norm_num)
    have hm2 : m1 = m2 := Option.some.inj (e10.symm.trans e20)
    have hm3 : m1 = m3 := Option.some.inj (e10.symm.trans e30)
    have hx2 : x1 = x2 := Option.some.inj (e11.symm.trans e21)
    have hx3 : x1 = x3 := Option.some.inj (e11.symm.trans e31)
    subst hm2
    subst hm3
    subst hx2
    subst hx3
    refine ⟨rfl, m1, x1, q1, q2, q3, ?_, ?_, ?_, ?_, ?_, e13, e14, e23, e24, e33, e34⟩
    · simpa [describeCol] using e10
    · simpa [describeCol] using e11
    · simpa [describeCol] using e12
    · simpa [describeCol] using e22
    · simpa [describeCol] using e32

/-- Witness for C6 at the Flow column of the Traffic sample table. -/
theorem stats_summary_count_and_quartile_bounds_witness :
    (describeCol trafficFlowVals).count = trafficFlowVals.length ∧
    ∃ mn mx q1 q2 q3,
      (describeCol trafficFlowVals).min = some mn ∧
      (describeCol trafficFlowVals).max = some mx ∧
      (describeCol trafficFlowVals).q25 = some q1 ∧
      (describeCol trafficFlowVals).q50 = some q2 ∧
      (describeCol trafficFlowVals).q75 = some q3 ∧
      mn ≤ q1 ∧ q1 ≤ mx ∧ mn ≤ q2 ∧ q2 ≤ mx ∧ mn ≤ q3 ∧ q3 ≤ mx :=
  (stats_summary_count_and_quartile_bounds (get_mock_data "智慧交通 (Traffic)")).2
    "Flow (veh/hr)" trafficFlowVals (by decide) (by decide)
